import Mathlib

/-!
Verification of the scoring and derived-metrics engine of a CRM backend:
lead scoring, customer health, campaign funnel rates, and invoice totals.
Each calculator from the source model files is embedded as a pure Lean
function over a record type mirroring the relevant columns; monetary and
rate values are modelled as rationals, integer columns as integers,
nullable columns as `Option`, and timestamps as integer day numbers with
the current time passed explicitly where recency is used.
-/

namespace CRM

/-- Lead quality enumeration (`LeadQuality` in `lead.py`). -/
inductive LeadQuality where
  | hot
  | warm
  | cold
deriving DecidableEq

/-- Invoice status enumeration (`InvoiceStatus` in `invoice.py`). -/
inductive InvoiceStatus where
  | draft
  | sent
  | viewed
  | paid
  | partially_paid
  | overdue
  | cancelled
  | refunded
deriving DecidableEq

/-- The fields of the `Lead` model read or written by
`Lead.calculate_lead_score`.  Timestamps are day numbers; `quality` is a
nullable column. -/
structure Lead where
  company_size : Option String
  annual_revenue : Option ℚ
  job_title : Option String
  website_visits : ℤ
  email_opens : ℤ
  email_clicks : ℤ
  total_interactions : ℤ
  last_contact_date : Option ℤ
  demographic_score : ℤ
  behavioral_score : ℤ
  engagement_score : ℤ
  lead_score : ℤ
  quality : Option LeadQuality
deriving DecidableEq

/-- Helper: `beginsWith needle hay` holds when the first list is an initial segment of the
second (helper for Python's substring operator `in`). -/
def beginsWith : List Char → List Char → Bool
  | [], _ => true
  | _ :: _, [] => false
  | a :: as, b :: bs => a == b && beginsWith as bs

/-- Python's `needle in hay` on strings, as lists of characters. -/
def hasSub (needle : List Char) : List Char → Bool
  | [] => beginsWith needle []
  | c :: rest => beginsWith needle (c :: rest) || hasSub needle rest

/-- Embedding of `any(title in self.job_title.lower() for title in ["ceo","cto","manager","director"])`. -/
def titleMatches (t : String) : Bool :=
  ["ceo", "cto", "manager", "director"].any
    (fun kw => hasSub kw.toList t.toLower.toList)

/-- Demographic scoring accumulator of `calculate_lead_score`
(`lead.py` lines 133–146), before the cap at 30. -/
def demographicRaw (l : Lead) : ℤ :=
  (if l.company_size = some "Large" ∨ l.company_size = some "Enterprise" then 10
   else if l.company_size = some "Medium" then 5 else 0)
  + (match l.annual_revenue with
     | some r => if r > 1000000 then 10 else if r > 100000 then 5 else 0
     | none => 0)
  + (match l.job_title with
     | some t => if titleMatches t then 10 else 0
     | none => 0)

/-- Behavioral scoring accumulator (`lead.py` lines 148–165), before the
cap at 40. -/
def behavioralRaw (l : Lead) : ℤ :=
  (if l.website_visits > 10 then 15
   else if l.website_visits > 5 then 10
   else if l.website_visits > 0 then 5 else 0)
  + (if l.email_opens > 5 then 10 else if l.email_opens > 2 then 5 else 0)
  + (if l.email_clicks > 3 then 15 else if l.email_clicks > 0 then 10 else 0)

/-- Engagement scoring accumulator (`lead.py` lines 167–182), before the
cap at 30; `now` is the current day, standing for `datetime.utcnow()`. -/
def engagementRaw (now : ℤ) (l : Lead) : ℤ :=
  (if l.total_interactions > 10 then 20
   else if l.total_interactions > 5 then 15
   else if l.total_interactions > 0 then 10 else 0)
  + (match l.last_contact_date with
     | some d => if now - d ≤ 7 then 10 else if now - d ≤ 30 then 5 else 0
     | none => 0)

/-- Embedding of `Lead.calculate_lead_score` (`lead.py` lines 131–201): caps the three
sub-scores, sums them with a cap at 100, and derives the quality tier. -/
def calculate_lead_score (now : ℤ) (l : Lead) : Lead :=
  let ds := min (demographicRaw l) 30
  let bs := min (behavioralRaw l) 40
  let es := min (engagementRaw now l) 30
  let score := min (ds + bs + es) 100
  { l with
    demographic_score := ds
    behavioral_score := bs
    engagement_score := es
    lead_score := score
    quality := some (if score ≥ 80 then LeadQuality.hot
                     else if score ≥ 50 then LeadQuality.warm
                     else LeadQuality.cold) }

/-- The quality tier as a function of the total score alone
(`lead.py` lines 194–199). -/
def qualityOf (score : ℤ) : LeadQuality :=
  if score ≥ 80 then LeadQuality.hot
  else if score ≥ 50 then LeadQuality.warm
  else LeadQuality.cold

/-- Rank of a quality tier in the order cold < warm < hot. -/
def qualityRank : LeadQuality → ℕ
  | LeadQuality.cold => 0
  | LeadQuality.warm => 1
  | LeadQuality.hot => 2

/-- The fields of the `Campaign` model read or written by
`Campaign.calculate_metrics`.  The rate columns are nullable. -/
structure Campaign where
  sent_count : ℤ
  delivered_count : ℤ
  opened_count : ℤ
  clicked_count : ℤ
  converted_count : ℤ
  unsubscribed_count : ℤ
  actual_cost : Option ℚ
  delivery_rate : Option ℚ
  open_rate : Option ℚ
  click_rate : Option ℚ
  conversion_rate : Option ℚ
  roi : Option ℚ
deriving DecidableEq

/-- Embedding of `Campaign.calculate_metrics` (`campaign.py` lines 121–139): each rate
is written only when its denominator is positive; the ROI branch of the
source does nothing (`pass`), so `roi` is never written. -/
def calculate_metrics (c : Campaign) : Campaign :=
  let c1 := if 0 < c.sent_count
    then { c with delivery_rate := some (((c.delivered_count : ℚ) / (c.sent_count : ℚ)) * 100) }
    else c
  let c2 := if 0 < c1.delivered_count
    then { c1 with open_rate := some (((c1.opened_count : ℚ) / (c1.delivered_count : ℚ)) * 100) }
    else c1
  let c3 := if 0 < c2.opened_count
    then { c2 with click_rate := some (((c2.clicked_count : ℚ) / (c2.opened_count : ℚ)) * 100) }
    else c2
  if 0 < c3.clicked_count
    then { c3 with conversion_rate := some (((c3.converted_count : ℚ) / (c3.clicked_count : ℚ)) * 100) }
    else c3

/-- The fields of the per-day `CampaignMetric` model read or written by
`CampaignMetric.calculate_rates`. -/
structure CampaignMetric where
  sent_count : ℤ
  delivered_count : ℤ
  opened_count : ℤ
  clicked_count : ℤ
  converted_count : ℤ
  unsubscribed_count : ℤ
  bounced_count : ℤ
  cost : Option ℚ
  delivery_rate : Option ℚ
  open_rate : Option ℚ
  click_rate : Option ℚ
  conversion_rate : Option ℚ
deriving DecidableEq

/-- Embedding of `CampaignMetric.calculate_rates` (`campaign.py` lines 243–255): the
same four guarded rate computations at per-day level. -/
def calculate_rates (m : CampaignMetric) : CampaignMetric :=
  let m1 := if 0 < m.sent_count
    then { m with delivery_rate := some (((m.delivered_count : ℚ) / (m.sent_count : ℚ)) * 100) }
    else m
  let m2 := if 0 < m1.delivered_count
    then { m1 with open_rate := some (((m1.opened_count : ℚ) / (m1.delivered_count : ℚ)) * 100) }
    else m1
  let m3 := if 0 < m2.opened_count
    then { m2 with click_rate := some (((m2.clicked_count : ℚ) / (m2.opened_count : ℚ)) * 100) }
    else m2
  if 0 < m3.clicked_count
    then { m3 with conversion_rate := some (((m3.converted_count : ℚ) / (m3.clicked_count : ℚ)) * 100) }
    else m3

/-- A campaign whose `delivery_rate` holds a previously computed value
while its `sent_count` has been reset to zero. -/
def staleCampaign : Campaign :=
  { sent_count := 0, delivered_count := 0, opened_count := 0,
    clicked_count := 0, converted_count := 0, unsubscribed_count := 0,
    actual_cost := none, delivery_rate := some 95, open_rate := none,
    click_rate := none, conversion_rate := none, roi := none }

/-- A freshly created campaign after a send: 1000 sent, 950 delivered,
nothing opened or clicked yet, all rates still null. -/
def demoCampaign : Campaign :=
  { sent_count := 1000, delivered_count := 950, opened_count := 0,
    clicked_count := 0, converted_count := 0, unsubscribed_count := 0,
    actual_cost := none, delivery_rate := none, open_rate := none,
    click_rate := none, conversion_rate := none, roi := none }

/-- The fields of the `Customer` model read by
`Customer.calculate_health_score`. -/
structure Customer where
  engagement_score : Option ℤ
  satisfaction_score : Option ℚ
  last_contact_date : Option ℤ
  total_revenue : Option ℚ
deriving DecidableEq

/-- Engagement contribution of `calculate_health_score`
(`customer.py` lines 147–149); the guard is Python truthiness, so a zero
score contributes nothing. -/
def engagementTerm : Option ℤ → ℚ
  | some e => if e = 0 then 0 else min ((e : ℚ) * 0.4) 40
  | none => 0

/-- Satisfaction contribution (`customer.py` lines 151–153). -/
def satisfactionTerm : Option ℚ → ℚ
  | some s => if s = 0 then 0 else s * 2
  | none => 0

/-- Recency contribution (`customer.py` lines 155–161); `now` stands for
`datetime.utcnow()` as a day number. -/
def recencyTerm (now : ℤ) : Option ℤ → ℚ
  | some d => if now - d ≤ 30 then 20 else if now - d ≤ 90 then 10 else 0
  | none => 0

/-- Revenue contribution (`customer.py` lines 163–165); the source guards
with `self.total_revenue and self.total_revenue > 0`. -/
def revenueTerm : Option ℚ → ℚ
  | some r => if r ≠ 0 ∧ 0 < r then min (r / 1000) 20 else 0
  | none => 0

/-- Embedding of `Customer.calculate_health_score` (`customer.py` lines 143–167): the
sum of the four contributions accumulated into `score`, capped at 100. -/
def calculate_health_score (now : ℤ) (c : Customer) : ℚ :=
  min (engagementTerm c.engagement_score + satisfactionTerm c.satisfaction_score
       + recencyTerm now c.last_contact_date + revenueTerm c.total_revenue) 100

/-- Engagement contribution as the specification words it:
`min(engagement_score × 0.4, 40)`, 0 if absent (for comparison with
`engagementTerm`). -/
def engagementTermSpec : Option ℤ → ℚ
  | some e => min ((e : ℚ) * 0.4) 40
  | none => 0

/-- Satisfaction contribution as the specification words it:
`satisfaction_score × 2`, 0 if absent. -/
def satisfactionTermSpec : Option ℚ → ℚ
  | some s => s * 2
  | none => 0

/-- Revenue contribution as the specification words it:
`min(total_revenue / 1000, 20)`, 0 if absent. -/
def revenueTermSpec : Option ℚ → ℚ
  | some r => min (r / 1000) 20
  | none => 0

/-- The clamped additive model of the specification: the four
contributions in their spec form, summed (for comparison with
`calculate_health_score`). -/
def healthContributionsSpec (now : ℤ) (c : Customer) : ℚ :=
  engagementTermSpec c.engagement_score + satisfactionTermSpec c.satisfaction_score
  + recencyTerm now c.last_contact_date + revenueTermSpec c.total_revenue

/-- The spec's concrete health scenario: engagement 100, satisfaction 10,
last contact 5 days before `now = 5`, revenue 50,000. -/
def healthyCustomer : Customer :=
  { engagement_score := some 100, satisfaction_score := some 10,
    last_contact_date := some 0, total_revenue := some 50000 }

/-- The fields of the `InvoiceItem` model read or written by
`InvoiceItem.calculate_total`.  `discount_percent`, `discount_amount`,
`tax_rate` and `tax_amount` are nullable columns. -/
structure InvoiceItem where
  quantity : ℚ
  unit_price : ℚ
  discount_percent : Option ℚ
  discount_amount : Option ℚ
  tax_rate : Option ℚ
  tax_amount : Option ℚ
  total_amount : ℚ
deriving DecidableEq

/-- Embedding of `InvoiceItem.calculate_total` (`invoice.py` lines 183–198).  The
discount is recomputed only when `discount_percent` is truthy (present
and nonzero), and the tax only when `tax_rate` is truthy; otherwise the
stored `discount_amount` / `tax_amount` (0 when null, via `or 0`) feed
into the total unchanged. -/
def calculate_total (it : InvoiceItem) : InvoiceItem :=
  let subtotal := it.quantity * it.unit_price
  let discount_amount :=
    match it.discount_percent with
    | some p => if p = 0 then it.discount_amount else some (subtotal * (p / 100))
    | none => it.discount_amount
  let amount_after_discount := subtotal - discount_amount.getD 0
  let tax_amount :=
    match it.tax_rate with
    | some r => if r = 0 then it.tax_amount else some (amount_after_discount * (r / 100))
    | none => it.tax_amount
  { it with
    discount_amount := discount_amount
    tax_amount := tax_amount
    total_amount := amount_after_discount + tax_amount.getD 0 }

/-- The fields of the `Invoice` model read or written by
`Invoice.calculate_totals` and `Invoice.add_payment`.  `paid_date` is a
nullable timestamp. -/
structure Invoice where
  status : InvoiceStatus
  subtotal : ℚ
  tax_amount : ℚ
  discount_amount : ℚ
  total_amount : ℚ
  paid_amount : ℚ
  due_amount : ℚ
  tax_rate : ℚ
  paid_date : Option ℤ
  items : List InvoiceItem
deriving DecidableEq

/-- Embedding of `Invoice.calculate_totals` (`invoice.py` lines 117–122). -/
def calculate_totals (inv : Invoice) : Invoice :=
  let subtotal := (inv.items.map InvoiceItem.total_amount).sum
  let tax_amount := subtotal * (inv.tax_rate / 100)
  let total_amount := subtotal + tax_amount - inv.discount_amount
  { inv with
    subtotal := subtotal
    tax_amount := tax_amount
    total_amount := total_amount
    due_amount := total_amount - inv.paid_amount }

/-- Embedding of `Invoice.add_payment` (`invoice.py` lines 124–134); `now` stands for
`func.now()` used for `paid_date`. -/
def add_payment (now : ℤ) (inv : Invoice) (amount : ℚ) : Invoice :=
  let inv1 := { inv with paid_amount := inv.paid_amount + amount }
  let inv2 := { inv1 with due_amount := inv1.total_amount - inv1.paid_amount }
  if inv2.due_amount ≤ 0 then
    { inv2 with status := InvoiceStatus.paid, paid_date := some now }
  else if 0 < inv2.paid_amount then
    { inv2 with status := InvoiceStatus.partially_paid }
  else inv2

/-- The spec's concrete invoice item: quantity 2, unit price 100,
10% discount, 5% item-level tax, stored derived columns at their
defaults. -/
def exampleItem : InvoiceItem :=
  { quantity := 2, unit_price := 100, discount_percent := some 10,
    discount_amount := some 0, tax_rate := some 5, tax_amount := some 0,
    total_amount := 0 }

/-- The spec's concrete invoice: the single example item (after its own
total calculation), invoice-level tax rate 8%, no invoice discount,
nothing paid. -/
def exampleInvoice : Invoice :=
  { status := InvoiceStatus.draft, subtotal := 0, tax_amount := 0,
    discount_amount := 0, total_amount := 0, paid_amount := 0,
    due_amount := 0, tax_rate := 8, paid_date := none,
    items := [calculate_total exampleItem] }

/-- An unpaid invoice with `total_amount = 100` used for the payment
round-trip scenarios. -/
def simpleInvoice : Invoice :=
  { status := InvoiceStatus.sent, subtotal := 100, tax_amount := 0,
    discount_amount := 0, total_amount := 100, paid_amount := 0,
    due_amount := 100, tax_rate := 0, paid_date := none, items := [] }

/-- An item with no `discount_percent` but a non-zero pre-existing
`discount_amount` left over in its stored column. -/
def staleItem : InvoiceItem :=
  { quantity := 1, unit_price := 100, discount_percent := none,
    discount_amount := some 50, tax_rate := none, tax_amount := some 0,
    total_amount := 0 }

theorem demographicRaw_nonneg (l : Lead) : 0 ≤ demographicRaw l := by
  unfold demographicRaw
  have h1 : (0:ℤ) ≤ (if l.company_size = some "Large" ∨ l.company_size = some "Enterprise" then 10
      else if l.company_size = some "Medium" then 5 else 0) := by positivity
  have h2 : (0:ℤ) ≤ (match l.annual_revenue with
     | some r => if r > 1000000 then 10 else if r > 100000 then 5 else 0
     | none => 0) := by
    cases l.annual_revenue with
    | none => simp
    | some r => positivity
  have h3 : (0:ℤ) ≤ (match l.job_title with
     | some t => if titleMatches t then 10 else 0
     | none => 0) := by
    cases l.job_title with
    | none => simp
    | some t => positivity
  omega

theorem behavioralRaw_nonneg (l : Lead) : 0 ≤ behavioralRaw l := by
  unfold behavioralRaw
  have h1 : (0:ℤ) ≤ (if l.website_visits > 10 then 15
      else if l.website_visits > 5 then 10
      else if l.website_visits > 0 then 5 else 0) := by positivity
  have h2 : (0:ℤ) ≤ (if l.email_opens > 5 then 10 else if l.email_opens > 2 then 5 else 0) := by
    positivity
  have h3 : (0:ℤ) ≤ (if l.email_clicks > 3 then 15 else if l.email_clicks > 0 then 10 else 0) := by
    positivity
  omega

theorem engagementRaw_nonneg (now : ℤ) (l : Lead) : 0 ≤ engagementRaw now l := by
  unfold engagementRaw
  have h1 : (0:ℤ) ≤ (if l.total_interactions > 10 then 20
      else if l.total_interactions > 5 then 15
      else if l.total_interactions > 0 then 10 else 0) := by positivity
  have h2 : (0:ℤ) ≤ (match l.last_contact_date with
     | some d => if now - d ≤ 7 then 10 else if now - d ≤ 30 then 5 else 0
     | none => 0) := by
    cases l.last_contact_date with
    | none => simp
    | some d => positivity
  omega

/-- C1: after `calculate_lead_score`, `demographic_score ≤ 30`,
`behavioral_score ≤ 40`, `engagement_score ≤ 30`, and `lead_score` equals
the sum of the three components (each capped independently before the
summation) with `lead_score ≤ 100`. -/
theorem lead_score_invariant (now : ℤ) (l : Lead) :
    (calculate_lead_score now l).demographic_score ≤ 30 ∧
    (calculate_lead_score now l).behavioral_score ≤ 40 ∧
    (calculate_lead_score now l).engagement_score ≤ 30 ∧
    (calculate_lead_score now l).lead_score =
      (calculate_lead_score now l).demographic_score +
      (calculate_lead_score now l).behavioral_score +
      (calculate_lead_score now l).engagement_score ∧
    (calculate_lead_score now l).lead_score ≤ 100 := by
  simp only [calculate_lead_score]
  omega

/-- C6: the derived quality is a function of `lead_score` alone, monotonic
non-decreasing across cold < warm < hot, with exact boundaries: score ≥ 80
is hot, 50–79 is warm, ≤ 49 is cold (79 → warm, 80 → hot, 49 → cold,
50 → warm). -/
theorem lead_quality_of_score :
    (∀ (now : ℤ) (l : Lead),
      (calculate_lead_score now l).quality =
        some (qualityOf (calculate_lead_score now l).lead_score)) ∧
    (∀ s t : ℤ, s ≤ t → qualityRank (qualityOf s) ≤ qualityRank (qualityOf t)) ∧
    qualityOf 79 = LeadQuality.warm ∧ qualityOf 80 = LeadQuality.hot ∧
    qualityOf 49 = LeadQuality.cold ∧ qualityOf 50 = LeadQuality.warm := by
  refine ⟨fun now l => rfl, fun s t hst => ?_, by decide, by decide, by decide, by decide⟩
  unfold qualityOf
  split_ifs <;> simp [qualityRank] <;> omega

/-- Witness for C6 at concrete scores. -/
theorem lead_quality_of_score_witness :
    qualityRank (qualityOf 49) ≤ qualityRank (qualityOf 80) :=
  lead_quality_of_score.2.1 49 80 (by decide)

/-- C2 counterexample: on a campaign with `sent_count = 0` whose
`delivery_rate` holds a stale value, `calculate_metrics` leaves the stale
value in place instead of making the rate null. -/
theorem campaign_zero_denominator_not_null :
    staleCampaign.sent_count = 0 ∧
    (calculate_metrics staleCampaign).delivery_rate = some 95 ∧
    (calculate_metrics staleCampaign).delivery_rate ≠ none := by decide

/-- Normal form of `calculate_metrics`: each rate gets its funnel ratio
when its denominator is positive and keeps its previous value otherwise;
every other field is carried over. -/
theorem calculate_metrics_eq (c : Campaign) :
    calculate_metrics c =
      { c with
        delivery_rate := if 0 < c.sent_count
          then some (((c.delivered_count : ℚ) / (c.sent_count : ℚ)) * 100)
          else c.delivery_rate
        open_rate := if 0 < c.delivered_count
          then some (((c.opened_count : ℚ) / (c.delivered_count : ℚ)) * 100)
          else c.open_rate
        click_rate := if 0 < c.opened_count
          then some (((c.clicked_count : ℚ) / (c.opened_count : ℚ)) * 100)
          else c.click_rate
        conversion_rate := if 0 < c.clicked_count
          then some (((c.converted_count : ℚ) / (c.clicked_count : ℚ)) * 100)
          else c.conversion_rate } := by
  by_cases h1 : 0 < c.sent_count <;> by_cases h2 : 0 < c.delivered_count <;>
    by_cases h3 : 0 < c.opened_count <;> by_cases h4 : 0 < c.clicked_count <;>
    simp [calculate_metrics, h1, h2, h3, h4]

/-- Normal form of `calculate_rates`, as for `calculate_metrics`. -/
theorem calculate_rates_eq (m : CampaignMetric) :
    calculate_rates m =
      { m with
        delivery_rate := if 0 < m.sent_count
          then some (((m.delivered_count : ℚ) / (m.sent_count : ℚ)) * 100)
          else m.delivery_rate
        open_rate := if 0 < m.delivered_count
          then some (((m.opened_count : ℚ) / (m.delivered_count : ℚ)) * 100)
          else m.open_rate
        click_rate := if 0 < m.opened_count
          then some (((m.clicked_count : ℚ) / (m.opened_count : ℚ)) * 100)
          else m.click_rate
        conversion_rate := if 0 < m.clicked_count
          then some (((m.converted_count : ℚ) / (m.clicked_count : ℚ)) * 100)
          else m.conversion_rate } := by
  by_cases h1 : 0 < m.sent_count <;> by_cases h2 : 0 < m.delivered_count <;>
    by_cases h3 : 0 < m.opened_count <;> by_cases h4 : 0 < m.clicked_count <;>
    simp [calculate_rates, h1, h2, h3, h4]

/-- C2 amended: after the rate calculation, a rate whose denominator is
positive equals numerator/denominator × 100; a rate whose denominator is
not positive keeps exactly its prior value (so it is null only when it
was null before the call); no division by zero is performed.  This holds
for campaigns and for per-day metric records. -/
theorem campaign_rates_guarded :
    (∀ c : Campaign,
      (0 < c.sent_count → (calculate_metrics c).delivery_rate =
        some (((c.delivered_count : ℚ) / (c.sent_count : ℚ)) * 100)) ∧
      (¬ 0 < c.sent_count → (calculate_metrics c).delivery_rate = c.delivery_rate) ∧
      (0 < c.delivered_count → (calculate_metrics c).open_rate =
        some (((c.opened_count : ℚ) / (c.delivered_count : ℚ)) * 100)) ∧
      (¬ 0 < c.delivered_count → (calculate_metrics c).open_rate = c.open_rate) ∧
      (0 < c.opened_count → (calculate_metrics c).click_rate =
        some (((c.clicked_count : ℚ) / (c.opened_count : ℚ)) * 100)) ∧
      (¬ 0 < c.opened_count → (calculate_metrics c).click_rate = c.click_rate) ∧
      (0 < c.clicked_count → (calculate_metrics c).conversion_rate =
        some (((c.converted_count : ℚ) / (c.clicked_count : ℚ)) * 100)) ∧
      (¬ 0 < c.clicked_count → (calculate_metrics c).conversion_rate = c.conversion_rate)) ∧
    (∀ m : CampaignMetric,
      (0 < m.sent_count → (calculate_rates m).delivery_rate =
        some (((m.delivered_count : ℚ) / (m.sent_count : ℚ)) * 100)) ∧
      (¬ 0 < m.sent_count → (calculate_rates m).delivery_rate = m.delivery_rate) ∧
      (0 < m.delivered_count → (calculate_rates m).open_rate =
        some (((m.opened_count : ℚ) / (m.delivered_count : ℚ)) * 100)) ∧
      (¬ 0 < m.delivered_count → (calculate_rates m).open_rate = m.open_rate) ∧
      (0 < m.opened_count → (calculate_rates m).click_rate =
        some (((m.clicked_count : ℚ) / (m.opened_count : ℚ)) * 100)) ∧
      (¬ 0 < m.opened_count → (calculate_rates m).click_rate = m.click_rate) ∧
      (0 < m.clicked_count → (calculate_rates m).conversion_rate =
        some (((m.converted_count : ℚ) / (m.clicked_count : ℚ)) * 100)) ∧
      (¬ 0 < m.clicked_count → (calculate_rates m).conversion_rate = m.conversion_rate)) := by
  constructor
  · intro c
    refine ⟨fun h => ?_, fun h => ?_, fun h => ?_, fun h => ?_,
            fun h => ?_, fun h => ?_, fun h => ?_, fun h => ?_⟩ <;>
      simp [calculate_metrics_eq, h]
  · intro m
    refine ⟨fun h => ?_, fun h => ?_, fun h => ?_, fun h => ?_,
            fun h => ?_, fun h => ?_, fun h => ?_, fun h => ?_⟩ <;>
      simp [calculate_rates_eq, h]

/-- Witness for C2 amended on `demoCampaign`: the delivery rate is
computed (95%), the click rate keeps its null value. -/
theorem campaign_rates_guarded_witness :
    (calculate_metrics demoCampaign).delivery_rate =
      some (((demoCampaign.delivered_count : ℚ) / (demoCampaign.sent_count : ℚ)) * 100) ∧
    (calculate_metrics demoCampaign).click_rate = demoCampaign.click_rate :=
  ⟨(campaign_rates_guarded.1 demoCampaign).1 (by decide),
   (campaign_rates_guarded.1 demoCampaign).2.2.2.2.2.1 (by decide)⟩

/-- C9: the rate calculations never modify the counter fields nor any
other non-rate field, and a rate whose denominator is zero is not
written at all — it keeps exactly its previous value; for campaigns and
for per-day metric records alike. -/
theorem campaign_rates_frame :
    (∀ c : Campaign,
      (calculate_metrics c).sent_count = c.sent_count ∧
      (calculate_metrics c).delivered_count = c.delivered_count ∧
      (calculate_metrics c).opened_count = c.opened_count ∧
      (calculate_metrics c).clicked_count = c.clicked_count ∧
      (calculate_metrics c).converted_count = c.converted_count ∧
      (calculate_metrics c).unsubscribed_count = c.unsubscribed_count ∧
      (calculate_metrics c).actual_cost = c.actual_cost ∧
      (calculate_metrics c).roi = c.roi ∧
      (c.sent_count = 0 → (calculate_metrics c).delivery_rate = c.delivery_rate) ∧
      (c.delivered_count = 0 → (calculate_metrics c).open_rate = c.open_rate) ∧
      (c.opened_count = 0 → (calculate_metrics c).click_rate = c.click_rate) ∧
      (c.clicked_count = 0 → (calculate_metrics c).conversion_rate = c.conversion_rate)) ∧
    (∀ m : CampaignMetric,
      (calculate_rates m).sent_count = m.sent_count ∧
      (calculate_rates m).delivered_count = m.delivered_count ∧
      (calculate_rates m).opened_count = m.opened_count ∧
      (calculate_rates m).clicked_count = m.clicked_count ∧
      (calculate_rates m).converted_count = m.converted_count ∧
      (calculate_rates m).unsubscribed_count = m.unsubscribed_count ∧
      (calculate_rates m).bounced_count = m.bounced_count ∧
      (calculate_rates m).cost = m.cost ∧
      (m.sent_count = 0 → (calculate_rates m).delivery_rate = m.delivery_rate) ∧
      (m.delivered_count = 0 → (calculate_rates m).open_rate = m.open_rate) ∧
      (m.opened_count = 0 → (calculate_rates m).click_rate = m.click_rate) ∧
      (m.clicked_count = 0 → (calculate_rates m).conversion_rate = m.conversion_rate)) := by
  constructor
  · intro c
    rw [calculate_metrics_eq]
    refine ⟨rfl, rfl, rfl, rfl, rfl, rfl, rfl, rfl,
            fun h => ?_, fun h => ?_, fun h => ?_, fun h => ?_⟩ <;> simp [h]
  · intro m
    rw [calculate_rates_eq]
    refine ⟨rfl, rfl, rfl, rfl, rfl, rfl, rfl, rfl,
            fun h => ?_, fun h => ?_, fun h => ?_, fun h => ?_⟩ <;> simp [h]

/-- Witness for C9 on `staleCampaign` (all denominators zero). -/
theorem campaign_rates_frame_witness :
    (calculate_metrics staleCampaign).sent_count = staleCampaign.sent_count ∧
    (calculate_metrics staleCampaign).delivery_rate = staleCampaign.delivery_rate ∧
    (calculate_metrics staleCampaign).conversion_rate = staleCampaign.conversion_rate :=
  ⟨(campaign_rates_frame.1 staleCampaign).1,
   (campaign_rates_frame.1 staleCampaign).2.2.2.2.2.2.2.2.1 (by decide),
   (campaign_rates_frame.1 staleCampaign).2.2.2.2.2.2.2.2.2.2.2 (by decide)⟩

theorem engagementTerm_eq_spec (o : Option ℤ) :
    engagementTerm o = engagementTermSpec o := by
  cases o with
  | none => rfl
  | some e =>
    by_cases h : e = 0
    · subst h
      norm_num [engagementTerm, engagementTermSpec, min_def]
    · simp [engagementTerm, engagementTermSpec, h]

theorem satisfactionTerm_eq_spec (o : Option ℚ) :
    satisfactionTerm o = satisfactionTermSpec o := by
  cases o with
  | none => rfl
  | some s =>
    by_cases h : s = 0
    · subst h
      norm_num [satisfactionTerm, satisfactionTermSpec]
    · simp [satisfactionTerm, satisfactionTermSpec, h]

theorem revenueTerm_eq_spec (o : Option ℚ) (h : 0 ≤ o.getD 0) :
    revenueTerm o = revenueTermSpec o := by
  cases o with
  | none => rfl
  | some r =>
    simp only [Option.getD_some] at h
    by_cases hr : r = 0
    · subst hr
      norm_num [revenueTerm, revenueTermSpec, min_def]
    · have hpos : 0 < r := lt_of_le_of_ne h (Ne.symm hr)
      simp [revenueTerm, revenueTermSpec, hr, hpos]

theorem engagementTerm_nonneg (o : Option ℤ) (h : 0 ≤ o.getD 0) :
    0 ≤ engagementTerm o := by
  cases o with
  | none => simp [engagementTerm]
  | some e =>
    simp only [Option.getD_some] at h
    by_cases he : e = 0
    · simp [engagementTerm, he]
    · have : (0:ℚ) ≤ (e : ℚ) * 0.4 := by
        have : (0:ℚ) ≤ (e : ℚ) := by exact_mod_cast h
        nlinarith
      simp only [engagementTerm, if_neg he]
      exact le_min this (by norm_num)

theorem satisfactionTerm_nonneg (o : Option ℚ) (h : 0 ≤ o.getD 0) :
    0 ≤ satisfactionTerm o := by
  cases o with
  | none => simp [satisfactionTerm]
  | some s =>
    simp only [Option.getD_some] at h
    by_cases hs : s = 0
    · simp [satisfactionTerm, hs]
    · simp only [satisfactionTerm, if_neg hs]
      nlinarith

theorem recencyTerm_nonneg (now : ℤ) (o : Option ℤ) : 0 ≤ recencyTerm now o := by
  cases o with
  | none => simp [recencyTerm]
  | some d =>
    simp only [recencyTerm]
    split_ifs <;> norm_num

theorem revenueTerm_nonneg (o : Option ℚ) : 0 ≤ revenueTerm o := by
  cases o with
  | none => simp [revenueTerm]
  | some r =>
    simp only [revenueTerm]
    split_ifs with h
    · have hr := h.2
      exact le_min (by positivity) (by norm_num)
    · exact le_refl 0

/-- C7: under the declared field domains (non-negative engagement,
satisfaction and revenue), the health score is in [0, 100] and equals the
clamped sum of the four independently pre-capped contributions of the
specification; the spec's concrete scenario evaluates to exactly 100. -/
theorem customer_health_spec :
    (∀ (now : ℤ) (c : Customer),
      0 ≤ c.engagement_score.getD 0 →
      0 ≤ c.satisfaction_score.getD 0 →
      0 ≤ c.total_revenue.getD 0 →
      0 ≤ calculate_health_score now c ∧
      calculate_health_score now c ≤ 100 ∧
      calculate_health_score now c = min (healthContributionsSpec now c) 100) ∧
    calculate_health_score 5 healthyCustomer = 100 := by
  constructor
  · intro now c h1 h2 h3
    have heq : calculate_health_score now c = min (healthContributionsSpec now c) 100 := by
      unfold calculate_health_score healthContributionsSpec
      rw [engagementTerm_eq_spec, satisfactionTerm_eq_spec, revenueTerm_eq_spec _ h3]
    refine ⟨?_, ?_, heq⟩
    · unfold calculate_health_score
      have t1 := engagementTerm_nonneg c.engagement_score h1
      have t2 := satisfactionTerm_nonneg c.satisfaction_score h2
      have t3 := recencyTerm_nonneg now c.last_contact_date
      have t4 := revenueTerm_nonneg c.total_revenue
      exact le_min (by linarith) (by norm_num)
    · unfold calculate_health_score
      exact min_le_right _ _
  · norm_num [calculate_health_score, healthyCustomer, engagementTerm,
      satisfactionTerm, recencyTerm, revenueTerm, min_def]

/-- Witness for C7 at the spec's concrete customer. -/
theorem customer_health_spec_witness :
    0 ≤ calculate_health_score 5 healthyCustomer ∧
    calculate_health_score 5 healthyCustomer ≤ 100 ∧
    calculate_health_score 5 healthyCustomer =
      min (healthContributionsSpec 5 healthyCustomer) 100 :=
  customer_health_spec.1 5 healthyCustomer (by decide) (by decide) (by decide)

theorem add_payment_paid (now : ℤ) (inv : Invoice) (amount : ℚ) :
    (add_payment now inv amount).paid_amount = inv.paid_amount + amount := by
  simp only [add_payment]
  split_ifs <;> rfl

theorem add_payment_due (now : ℤ) (inv : Invoice) (amount : ℚ) :
    (add_payment now inv amount).due_amount = inv.total_amount - (inv.paid_amount + amount) := by
  simp only [add_payment]
  split_ifs <;> rfl

theorem add_payment_status_of_nonpos (now : ℤ) (inv : Invoice) (amount : ℚ)
    (h : inv.total_amount - (inv.paid_amount + amount) ≤ 0) :
    (add_payment now inv amount).status = InvoiceStatus.paid ∧
    (add_payment now inv amount).paid_date = some now := by
  simp only [add_payment]
  split_ifs
  exact ⟨rfl, rfl⟩

theorem add_payment_status_partial (now : ℤ) (inv : Invoice) (amount : ℚ)
    (h1 : ¬ inv.total_amount - (inv.paid_amount + amount) ≤ 0)
    (h2 : 0 < inv.paid_amount + amount) :
    (add_payment now inv amount).status = InvoiceStatus.partially_paid := by
  simp only [add_payment]
  split_ifs
  rfl

theorem add_payment_status_frame (now : ℤ) (inv : Invoice) (amount : ℚ)
    (h1 : ¬ inv.total_amount - (inv.paid_amount + amount) ≤ 0)
    (h2 : ¬ 0 < inv.paid_amount + amount) :
    (add_payment now inv amount).status = inv.status := by
  simp only [add_payment]
  split_ifs
  rfl

/-- C3: `calculate_totals` sets `subtotal` to the sum of the items'
`total_amount`, `tax_amount = subtotal × tax_rate/100` (the invoice-level
rate, on top of any item-level tax already inside the item totals),
`total_amount = subtotal + tax_amount − discount_amount`, and
`due_amount = total_amount − paid_amount`; on the spec's example the item
total is 189 and the invoice total is 204.12. -/
theorem invoice_totals_spec :
    (∀ inv : Invoice,
      (calculate_totals inv).subtotal = (inv.items.map InvoiceItem.total_amount).sum ∧
      (calculate_totals inv).tax_amount = (calculate_totals inv).subtotal * (inv.tax_rate / 100) ∧
      (calculate_totals inv).total_amount =
        (calculate_totals inv).subtotal + (calculate_totals inv).tax_amount
        - inv.discount_amount ∧
      (calculate_totals inv).due_amount =
        (calculate_totals inv).total_amount - inv.paid_amount) ∧
    (calculate_total exampleItem).total_amount = 189 ∧
    (calculate_totals exampleInvoice).subtotal = 189 ∧
    (calculate_totals exampleInvoice).total_amount = 204.12 := by
  refine ⟨fun inv => ⟨rfl, rfl, rfl, rfl⟩, ?_, ?_, ?_⟩ <;>
    norm_num [calculate_total, exampleItem, calculate_totals, exampleInvoice]

/-- C4: `add_payment` adds the amount to `paid_amount`, recomputes
`due_amount = total_amount − paid_amount`, then: `due_amount ≤ 0` yields
status paid and records `paid_date`; otherwise a positive `paid_amount`
yields partially_paid; otherwise the status is unchanged.  A single
payment of `total_amount` on an unpaid invoice leaves `due_amount`
exactly 0 and status paid. -/
theorem add_payment_spec (now : ℤ) (inv : Invoice) (amount : ℚ) :
    (add_payment now inv amount).paid_amount = inv.paid_amount + amount ∧
    (add_payment now inv amount).due_amount = inv.total_amount - (inv.paid_amount + amount) ∧
    ((add_payment now inv amount).due_amount ≤ 0 →
      (add_payment now inv amount).status = InvoiceStatus.paid ∧
      (add_payment now inv amount).paid_date = some now) ∧
    (0 < (add_payment now inv amount).due_amount →
      0 < (add_payment now inv amount).paid_amount →
      (add_payment now inv amount).status = InvoiceStatus.partially_paid) ∧
    (0 < (add_payment now inv amount).due_amount →
      ¬ 0 < (add_payment now inv amount).paid_amount →
      (add_payment now inv amount).status = inv.status) ∧
    (inv.paid_amount = 0 → amount = inv.total_amount →
      (add_payment now inv amount).due_amount = 0 ∧
      (add_payment now inv amount).status = InvoiceStatus.paid) := by
  have hpaid := add_payment_paid now inv amount
  have hdue := add_payment_due now inv amount
  refine ⟨hpaid, hdue, ?_, ?_, ?_, ?_⟩
  · intro h
    rw [hdue] at h
    exact add_payment_status_of_nonpos now inv amount h
  · intro h h2
    rw [hdue] at h
    rw [hpaid] at h2
    exact add_payment_status_partial now inv amount (by linarith) h2
  · intro h h2
    rw [hdue] at h
    rw [hpaid] at h2
    exact add_payment_status_frame now inv amount (by linarith) h2
  · intro hp ha
    have h0 : inv.total_amount - (inv.paid_amount + amount) = 0 := by
      rw [hp, ha]; ring
    exact ⟨by rw [hdue, h0],
           (add_payment_status_of_nonpos now inv amount (le_of_eq h0)).1⟩

/-- Witness for C4: paying the full 100 on the unpaid `simpleInvoice`. -/
theorem add_payment_spec_witness :
    (add_payment 0 simpleInvoice 100).due_amount = 0 ∧
    (add_payment 0 simpleInvoice 100).status = InvoiceStatus.paid :=
  (add_payment_spec 0 simpleInvoice 100).2.2.2.2.2 (by decide) (by decide)

/-- C10: on overpayment, `due_amount` becomes the strictly negative value
`total_amount − (paid_amount + amount)` with no clamping at zero, and the
status becomes paid (the `due_amount ≤ 0` branch wins even though
`paid_amount > 0`). -/
theorem add_payment_overpay (now : ℤ) (inv : Invoice) (amount : ℚ)
    (h : inv.total_amount < inv.paid_amount + amount) :
    (add_payment now inv amount).due_amount = inv.total_amount - (inv.paid_amount + amount) ∧
    (add_payment now inv amount).due_amount < 0 ∧
    (add_payment now inv amount).status = InvoiceStatus.paid := by
  have hdue := add_payment_due now inv amount
  refine ⟨hdue, ?_, ?_⟩
  · rw [hdue]
    linarith
  · exact (add_payment_status_of_nonpos now inv amount (by linarith)).1

/-- Witness for C10: paying 150 on the 100-total `simpleInvoice`. -/
theorem add_payment_overpay_witness :
    (add_payment 0 simpleInvoice 150).due_amount =
      simpleInvoice.total_amount - (simpleInvoice.paid_amount + 150) ∧
    (add_payment 0 simpleInvoice 150).due_amount < 0 ∧
    (add_payment 0 simpleInvoice 150).status = InvoiceStatus.paid :=
  add_payment_overpay 0 simpleInvoice 150 (by norm_num [simpleInvoice])

/-- C5 counterexample: with `discount_percent` null but a pre-existing
`discount_amount` of 50 stored on the item, `calculate_total` subtracts
the stale 50 instead of applying a discount of 0: the total comes out 50,
not the undiscounted 100 the claim requires. -/
theorem item_stale_discount_counterexample :
    staleItem.discount_percent = none ∧
    (calculate_total staleItem).discount_amount = some 50 ∧
    (calculate_total staleItem).total_amount = 50 ∧
    (calculate_total staleItem).total_amount ≠
      staleItem.quantity * staleItem.unit_price := by
  norm_num [calculate_total, staleItem]

theorem calc_total_discount (it : InvoiceItem) :
    (calculate_total it).discount_amount =
      match it.discount_percent with
      | some p => if p = 0 then it.discount_amount
                  else some (it.quantity * it.unit_price * (p / 100))
      | none => it.discount_amount := by
  rcases hdp : it.discount_percent with _ | p
  · simp [calculate_total, hdp]
  · by_cases hp : p = 0 <;> simp [calculate_total, hdp, hp]

theorem calc_total_tax (it : InvoiceItem) :
    (calculate_total it).tax_amount =
      match it.tax_rate with
      | some r => if r = 0 then it.tax_amount
                  else some ((it.quantity * it.unit_price
                              - ((calculate_total it).discount_amount).getD 0) * (r / 100))
      | none => it.tax_amount := by
  rcases hdp : it.discount_percent with _ | p
  · rcases htr : it.tax_rate with _ | r
    · simp [calculate_total, hdp, htr]
    · by_cases hr : r = 0 <;> simp [calculate_total, hdp, htr, hr]
  · by_cases hp : p = 0
    · rcases htr : it.tax_rate with _ | r
      · simp [calculate_total, hdp, hp, htr]
      · by_cases hr : r = 0 <;> simp [calculate_total, hdp, hp, htr, hr]
    · rcases htr : it.tax_rate with _ | r
      · simp [calculate_total, hdp, hp, htr]
      · by_cases hr : r = 0 <;> simp [calculate_total, hdp, hp, htr, hr]

theorem calc_total_total (it : InvoiceItem) :
    (calculate_total it).total_amount =
      (it.quantity * it.unit_price - ((calculate_total it).discount_amount).getD 0)
      + ((calculate_total it).tax_amount).getD 0 := by
  rcases hdp : it.discount_percent with _ | p
  · rcases htr : it.tax_rate with _ | r
    · simp [calculate_total, hdp, htr]
    · by_cases hr : r = 0 <;> simp [calculate_total, hdp, htr, hr]
  · by_cases hp : p = 0
    · rcases htr : it.tax_rate with _ | r
      · simp [calculate_total, hdp, hp, htr]
      · by_cases hr : r = 0 <;> simp [calculate_total, hdp, hp, htr, hr]
    · rcases htr : it.tax_rate with _ | r
      · simp [calculate_total, hdp, hp, htr]
      · by_cases hr : r = 0 <;> simp [calculate_total, hdp, hp, htr, hr]

/-- C5 amended: `calculate_total` recomputes `discount_amount` as
`subtotal × discount_percent/100` only when `discount_percent` is present
and nonzero; otherwise the stored `discount_amount` (0 when null) is
subtracted unchanged — it is not reset to 0.  Likewise `tax_amount` is
recomputed from the discounted amount only when `tax_rate` is present and
nonzero, and `total_amount = after_discount + tax_amount` with the values
actually stored. -/
theorem item_total_formulas (it : InvoiceItem) :
    (∀ p, it.discount_percent = some p → p ≠ 0 →
      (calculate_total it).discount_amount =
        some (it.quantity * it.unit_price * (p / 100))) ∧
    ((it.discount_percent = none ∨ it.discount_percent = some 0) →
      (calculate_total it).discount_amount = it.discount_amount) ∧
    (∀ r, it.tax_rate = some r → r ≠ 0 →
      (calculate_total it).tax_amount =
        some ((it.quantity * it.unit_price
               - ((calculate_total it).discount_amount).getD 0) * (r / 100))) ∧
    ((it.tax_rate = none ∨ it.tax_rate = some 0) →
      (calculate_total it).tax_amount = it.tax_amount) ∧
    (calculate_total it).total_amount =
      (it.quantity * it.unit_price - ((calculate_total it).discount_amount).getD 0)
      + ((calculate_total it).tax_amount).getD 0 := by
  refine ⟨?_, ?_, ?_, ?_, calc_total_total it⟩
  · intro p hp hpne
    rw [calc_total_discount, hp]
    simp [hpne]
  · intro h
    rcases h with h | h
    · rw [calc_total_discount, h]
    · rw [calc_total_discount, h]; simp
  · intro r hr hrne
    rw [calc_total_tax, hr]
    simp [hrne]
  · intro h
    rcases h with h | h
    · rw [calc_total_tax, h]
    · rw [calc_total_tax, h]; simp

/-- Witness for C5 amended on the spec's example item (10% discount,
5% item tax). -/
theorem item_total_formulas_witness :
    (calculate_total exampleItem).discount_amount =
      some (exampleItem.quantity * exampleItem.unit_price * (10 / 100)) ∧
    (calculate_total exampleItem).tax_amount =
      some ((exampleItem.quantity * exampleItem.unit_price
             - ((calculate_total exampleItem).discount_amount).getD 0) * (5 / 100)) :=
  ⟨(item_total_formulas exampleItem).1 10 rfl (by norm_num),
   (item_total_formulas exampleItem).2.2.1 5 rfl (by norm_num)⟩

/-- C8: every calculator is idempotent — with the current time held fixed
where recency is used, a second invocation on the unchanged record
reproduces exactly the same final record state: no hidden counter or
memoization state exists in any of them. -/
theorem calculators_idempotent :
    (∀ (now : ℤ) (l : Lead),
      calculate_lead_score now (calculate_lead_score now l) = calculate_lead_score now l) ∧
    (∀ inv : Invoice, calculate_totals (calculate_totals inv) = calculate_totals inv) ∧
    (∀ it : InvoiceItem, calculate_total (calculate_total it) = calculate_total it) ∧
    (∀ c : Campaign, calculate_metrics (calculate_metrics c) = calculate_metrics c) ∧
    (∀ m : CampaignMetric, calculate_rates (calculate_rates m) = calculate_rates m) := by
  refine ⟨fun now l => rfl, fun inv => rfl, fun it => ?_, fun c => ?_, fun m => ?_⟩
  · rcases hdp : it.discount_percent with _ | p
    · rcases htr : it.tax_rate with _ | r
      · simp [calculate_total, hdp, htr]
      · by_cases hr : r = 0 <;> simp [calculate_total, hdp, htr, hr]
    · by_cases hp : p = 0
      · rcases htr : it.tax_rate with _ | r
        · simp [calculate_total, hdp, hp, htr]
        · by_cases hr : r = 0 <;> simp [calculate_total, hdp, hp, htr, hr]
      · rcases htr : it.tax_rate with _ | r
        · simp [calculate_total, hdp, hp, htr]
        · by_cases hr : r = 0 <;> simp [calculate_total, hdp, hp, htr, hr]
  · by_cases h1 : 0 < c.sent_count <;> by_cases h2 : 0 < c.delivered_count <;>
      by_cases h3 : 0 < c.opened_count <;> by_cases h4 : 0 < c.clicked_count <;>
      simp [calculate_metrics_eq, h1, h2, h3, h4]
  · by_cases h1 : 0 < m.sent_count <;> by_cases h2 : 0 < m.delivered_count <;>
      by_cases h3 : 0 < m.opened_count <;> by_cases h4 : 0 < m.clicked_count <;>
      simp [calculate_rates_eq, h1, h2, h3, h4]

end CRM
